import Mathlib

/-!
Shallow embedding of the alarms dashboard pipeline (src/dashboard.py).

The dashboard is a single linear script: load an excel sheet into a
dataframe, convert two millisecond-epoch columns to timestamps and drop
rows whose first-detection timestamp is missing, filter by a selected
set of severities, group by site summing an occurrence column, pivot by
calendar month and site, and render a table, three metric cards, two
callouts and two charts.  Rows are embedded as records, dataframes as
lists of records, and the rendered page as a list of render items in
script order.  Nullable dataframe cells (pandas NaN) are embedded as
Option values; in particular the site column may be null, and a pandas
groupby silently drops null keys.
-/

/-- A raw spreadsheet row as read by pd.read_excel, before timestamp
conversion.  A missing or non-numeric cell in a timestamp column is
none; pandas to_datetime with errors="coerce" also turns out-of-bounds
values into NaT, modelled by parse_ms below. -/
structure RawRecord where
  neName : Option String
  severity : String
  numberOfOccurrences : Int
  firstTimeDetected : Option Int
  lastTimeDetected : Option Int
deriving DecidableEq

/-- A loaded alarm record: timestamp columns hold the converted value
(none encodes NaT).  load_data guarantees firstTimeDetected is some. -/
structure AlarmRecord where
  neName : Option String
  severity : String
  numberOfOccurrences : Int
  firstTimeDetected : Option Int
  lastTimeDetected : Option Int
deriving DecidableEq

/-- pd.to_datetime(x, unit="ms", errors="coerce") on one cell: a missing
cell stays NaT, and a millisecond value whose nanosecond equivalent does
not fit the signed 64-bit Timestamp range coerces to NaT. -/
def parse_ms (c : Option Int) : Option Int :=
  c.bind (fun v =>
    if -9223372036854775807 ≤ v * 1000000 ∧ v * 1000000 ≤ 9223372036854775807
    then some v else none)

/-- Timestamp conversion of both columns of one row (dashboard.py lines
15-17). -/
def toAlarm (r : RawRecord) : AlarmRecord :=
  { neName := r.neName
    severity := r.severity
    numberOfOccurrences := r.numberOfOccurrences
    firstTimeDetected := parse_ms r.firstTimeDetected
    lastTimeDetected := parse_ms r.lastTimeDetected }

/-- load_data (dashboard.py lines 11-19): convert the two timestamp
columns, then dropna on firstTimeDetected. -/
def load_data (rows : List RawRecord) : List AlarmRecord :=
  (rows.map toAlarm).filter (fun r => r.firstTimeDetected.isSome)

/-- ASCII lowercase of a string, as pandas Series.str.lower acts on the
severity values in play. -/
def str_lower (s : String) : String :=
  String.mk (s.data.map Char.toLower)

/-- The severity filter (dashboard.py lines 38-39): a Python empty list
is falsy, so an empty selection skips filtering; otherwise keep rows
whose lowercased severity is in the selection. -/
def severity_filter (sel : List String) (df : List AlarmRecord) : List AlarmRecord :=
  if sel.isEmpty then df
  else df.filter (fun r => sel.contains (str_lower r.severity))

/-- Sum of the numberOfOccurrences column over a list of rows. -/
def occSum (l : List AlarmRecord) : Int :=
  (l.map (fun r => r.numberOfOccurrences)).sum

/-- The distinct non-null site keys of a dataframe: the group keys of
df.groupby("neName"), which drops null keys.  The claims settled below
never depend on the relative order of groups. -/
def siteKeys (df : List AlarmRecord) : List String :=
  (df.filterMap (fun r => r.neName)).dedup

/-- Per-site sum of numberOfOccurrences, one group of the groupby. -/
def siteTotal (df : List AlarmRecord) (s : String) : Int :=
  occSum (df.filter (fun r => r.neName == some s))

/-- One insertion step of a descending insertion sort on the summed
occurrence value. -/
def insertDesc (x : String × Int) : List (String × Int) → List (String × Int)
  | [] => [x]
  | y :: ys => if y.2 ≤ x.2 then x :: y :: ys else y :: insertDesc x ys

/-- Sort descending by the summed occurrence value, embedding the
sort_values(ascending=False) library call. -/
def sortDesc : List (String × Int) → List (String × Int)
  | [] => []
  | x :: xs => insertDesc x (sortDesc xs)

/-- site_criticals (dashboard.py lines 48-53): groupby neName, sum the
occurrence column, sort descending by the summed value. -/
def site_criticals (df : List AlarmRecord) : List (String × Int) :=
  sortDesc ((siteKeys df).map (fun s => (s, siteTotal df s)))

/-- The grand total rendered by the first metric card: the sum of the
summed occurrence column of site_criticals (dashboard.py line 73). -/
def grand_total (sc : List (String × Int)) : Int :=
  (sc.map Prod.snd).sum

/-- max of the summed occurrence column (dashboard.py lines 59 and 110);
only consulted when site_criticals is nonempty. -/
def max_crit (sc : List (String × Int)) : Int :=
  ((sc.map Prod.snd).max?).getD 0

/-- top_sites (dashboard.py lines 60 and 111): every site whose total
equals the maximum. -/
def top_sites (sc : List (String × Int)) : List String :=
  (sc.filter (fun p => p.2 == max_crit sc)).map Prod.fst

/-- The lambda of dashboard.py lines 64-66 applied to one neName cell: a
null cell is not in the top-site list and passes through unchanged. -/
def markName (tops : List String) (x : Option String) : Option String :=
  match x with
  | some s => if tops.contains s then some (s ++ " 🚨") else some s
  | none => none

/-- df_display (dashboard.py lines 62-66): a copy of the filtered rows
with top sites marked in the neName column. -/
def df_display (tops : List String) (df : List AlarmRecord) : List AlarmRecord :=
  df.map (fun r => { r with neName := markName tops r.neName })

/-- Civil calendar (year, month) of a day count since 1970-01-01,
following the standard days-to-civil-date algorithm; this is the
calendar month pandas assigns when grouping timestamps with a monthly
Grouper. -/
def civilYM (z0 : Int) : Int × Int :=
  let z := z0 + 719468
  let era := Int.fdiv z 146097
  let doe := z - era * 146097
  let yoe := Int.tdiv (doe - Int.tdiv doe 1460 + Int.tdiv doe 36524 - Int.tdiv doe 146096) 365
  let doy := doe - (365 * yoe + Int.tdiv yoe 4 - Int.tdiv yoe 100)
  let mp := Int.tdiv (5 * doy + 2) 153
  let m := if mp < 10 then mp + 3 else mp - 9
  (yoe + era * 400 + (if m ≤ 2 then 1 else 0), m)

/-- Calendar (year, month) of an epoch-millisecond timestamp. -/
def monthOf (ms : Int) : Int × Int :=
  civilYM (Int.fdiv ms 86400000)

/-- The monthly group key of one row: the calendar month of its
firstTimeDetected, none when the timestamp is NaT (a NaT row is dropped
by the monthly Grouper, exactly as a null neName is dropped). -/
def monthKey (r : AlarmRecord) : Option (Int × Int) :=
  r.firstTimeDetected.map monthOf

/-- The distinct (month, site) group keys of df_time (dashboard.py lines
97-101): a groupby on the monthly Grouper and neName drops rows where
either key is null. -/
def timePairs (df : List AlarmRecord) : List ((Int × Int) × String) :=
  (df.filterMap (fun r =>
    match monthKey r, r.neName with
    | some m, some s => some (m, s)
    | _, _ => none)).dedup

/-- Sum of numberOfOccurrences over the rows of one (month, site) group. -/
def cellTotal (df : List AlarmRecord) (m : Int × Int) (s : String) : Int :=
  occSum (df.filter (fun r => monthKey r == some m && r.neName == some s))

/-- One cell of the pivot of df_time before fillna: a (month, site)
combination absent from the grouped data is a missing (NaN) cell. -/
def pivotCell (df : List AlarmRecord) (m : Int × Int) (s : String) : Option Int :=
  if (timePairs df).contains (m, s) then some (cellTotal df m s) else none

/-- One cell of pivot_table (dashboard.py line 106): the pivot of
df_time with fillna(0) applied. -/
def pivot_table (df : List AlarmRecord) (m : Int × Int) (s : String) : Int :=
  (pivotCell df m s).getD 0

/-- The month axis of the pivot: the distinct months of df_time. -/
def monthsAxis (df : List AlarmRecord) : List (Int × Int) :=
  ((timePairs df).map Prod.fst).dedup

/-- The site axis of the pivot: the distinct sites of df_time. -/
def sitesAxis (df : List AlarmRecord) : List String :=
  ((timePairs df).map Prod.snd).dedup

/-- The site-axis labels of the heatmap after the rename_map of
dashboard.py lines 108-113: every top site gains the warning marker. -/
def heatSiteLabels (tops : List String) (df : List AlarmRecord) : List String :=
  (sitesAxis df).map (fun s => if tops.contains s then s ++ " 🚨" else s)

/-- ASCII titlecase as Python str.title acts on the labels in play:
the first letter of each alphabetic run is uppercased, the rest
lowercased. -/
def titleChars : List Char → Bool → List Char
  | [], _ => []
  | c :: cs, startWord =>
    if c.isAlpha then
      (if startWord then c.toUpper else c.toLower) :: titleChars cs false
    else c :: titleChars cs true

/-- Python str.title of a string. -/
def pyTitle (s : String) : String :=
  String.mk (titleChars s.data true)

/-- severity_label (dashboard.py lines 42-45). -/
def severity_label (sel : List String) : String :=
  if sel.isEmpty then "All Severities"
  else pyTitle (String.intercalate (" / ") sel)

/-- A value shown on a metric card: the first card shows a Python int,
the second a rounded float that is NaN when site_criticals is empty. -/
inductive MetricValue where
  | int (n : Int)
  | num (q : Rat)
  | nan
deriving DecidableEq

/-- Round-half-to-even of a rational, as Python round behaves on the
exactly representable values in play. -/
def roundHalfEven (q : Rat) : Int :=
  let f := ⌊q⌋
  if q - f < 1/2 then f
  else if (1 : Rat)/2 < q - f then f + 1
  else if f % 2 = 0 then f else f + 1

/-- Python round(x, 2) on a rational. -/
def round2 (q : Rat) : Rat :=
  (roundHalfEven (q * 100) : Rat) / 100

/-- The value of the second metric card (dashboard.py line 74): the mean
of the summed occurrence column, rounded to two decimals; the mean of an
empty column is NaN. -/
def mean_metric (sc : List (String × Int)) : MetricValue :=
  match sc with
  | [] => MetricValue.nan
  | _ => MetricValue.num (round2 ((grand_total sc : Rat) / (sc.length : Rat)))

/-- One element rendered onto the page, in script order. -/
inductive RenderItem where
  | table (rows : List AlarmRecord)
  | warning (msg : String)
  | metric (label : String) (v : MetricValue)
  | success (msg : String)
  | infoBox (msg : String)
  | barChart (sc : List (String × Int))
  | heatmap (siteLabels : List String)
deriving DecidableEq

/-- The page rendered by one run of the script (dashboard.py lines
38-124): the table or the empty-data warning, then the three metric
cards (rendered unconditionally), then the top-site callouts, then the
two charts. -/
def render (sel : List String) (loaded : List AlarmRecord) : List RenderItem :=
  let df := severity_filter sel loaded
  let label := severity_label sel
  let sc := site_criticals df
  (if sc.isEmpty then [RenderItem.warning ("No alarms to display.")]
   else [RenderItem.table (df_display (top_sites sc) df)])
  ++ [RenderItem.metric ("Total " ++ label) (MetricValue.int (grand_total sc)),
      RenderItem.metric ("Average " ++ label ++ " per Site") (mean_metric sc),
      RenderItem.metric ("Number of Sites") (MetricValue.int (sc.length : Int))]
  ++ (match sc with
      | [] => []
      | t :: rest =>
        [RenderItem.success (t.1 ++ " — " ++ toString t.2 ++ " " ++ label)]
        ++ (match rest with
            | [] => []
            | n :: _ => [RenderItem.infoBox (n.1 ++ " — " ++ toString n.2 ++ " " ++ label)]))
  ++ [RenderItem.barChart sc,
      RenderItem.heatmap (heatSiteLabels (if sc.isEmpty then [] else top_sites sc) df)]

/-- The observable state of one full pipeline run: the loaded records as
they stand after the run, the filtered view, the aggregation, and the
rendered page. -/
structure PipelineRun where
  loaded : List AlarmRecord
  filtered : List AlarmRecord
  sc : List (String × Int)
  items : List RenderItem

/-- One synchronous run of the whole script over already-loaded records:
filter, aggregate, render.  The loaded field is the record set as left
behind by the run (the script only ever derives copies from it). -/
def runPipeline (sel : List String) (loaded : List AlarmRecord) : PipelineRun :=
  { loaded := loaded
    filtered := severity_filter sel loaded
    sc := site_criticals (severity_filter sel loaded)
    items := render sel loaded }

/-- The three rows of the specification scenario, already loaded:
A critical 5 on 2024-01-05, B critical 5 on 2024-02-10, A minor 100 on
2024-01-06 (timestamps in epoch milliseconds). -/
def demoRows : List AlarmRecord :=
  [ { neName := some ("A"), severity := "critical", numberOfOccurrences := 5,
      firstTimeDetected := some 1704412800000, lastTimeDetected := none },
    { neName := some ("B"), severity := "critical", numberOfOccurrences := 5,
      firstTimeDetected := some 1707523200000, lastTimeDetected := none },
    { neName := some ("A"), severity := "minor", numberOfOccurrences := 100,
      firstTimeDetected := some 1704499200000, lastTimeDetected := none } ]

/-- A filtered row whose site cell is null (pandas NaN in neName). -/
def nullSiteRow : AlarmRecord :=
  { neName := none, severity := "critical", numberOfOccurrences := 5,
    firstTimeDetected := some 1704412800000, lastTimeDetected := none }

/-- A row whose severity is outside the expected vocabulary. -/
def unknownSevRow : AlarmRecord :=
  { neName := some ("A"), severity := "bogus", numberOfOccurrences := 3,
    firstTimeDetected := some 1704412800000, lastTimeDetected := none }

/-- The membership predicate of a fixed key list, seen as a row
predicate: true exactly on rows whose site key is one of the listed
groups.  Only used to reason about the groupby. -/
def keyIn (ks : List String) (r : AlarmRecord) : Bool :=
  match r.neName with
  | some s => ks.contains s
  | none => false

theorem insertDesc_perm (x : String × Int) (l : List (String × Int)) :
    (insertDesc x l).Perm (x :: l) := by
  induction l with
  | nil => simp [insertDesc]
  | cons y ys ih =>
    by_cases h : y.2 ≤ x.2
    · simp [insertDesc, h]
    · simp only [insertDesc, if_neg h]
      exact (ih.cons y).trans (List.Perm.swap x y ys)

theorem sortDesc_perm (l : List (String × Int)) : (sortDesc l).Perm l := by
  induction l with
  | nil => simp [sortDesc]
  | cons x xs ih => exact (insertDesc_perm x (sortDesc xs)).trans (ih.cons x)

theorem occSum_cons (a : AlarmRecord) (l : List AlarmRecord) :
    occSum (a :: l) = a.numberOfOccurrences + occSum l := by
  simp [occSum]

theorem length_filter_add {α : Type} (l : List α) (p : α → Bool) :
    (l.filter p).length + (l.filter (fun a => !(p a))).length = l.length := by
  induction l with
  | nil => rfl
  | cons a t ih => cases h : p a <;> simp [List.filter_cons, h] <;> omega

theorem sum_filter_disjoint (l : List AlarmRecord) (p q : AlarmRecord → Bool)
    (hd : ∀ r, ¬(p r = true ∧ q r = true)) :
    occSum (l.filter p) + occSum (l.filter q)
      = occSum (l.filter (fun r => p r || q r)) := by
  induction l with
  | nil => rfl
  | cons a t ih =>
    by_cases hp : p a = true
    · have hq : q a = false := by
        cases hq : q a
        · rfl
        · exact absurd ⟨hp, hq⟩ (hd a)
      simp [List.filter_cons, hp, hq, occSum_cons]
      omega
    · have hp2 : p a = false := by revert hp; cases p a <;> simp
      cases hq : q a <;> simp [List.filter_cons, hp2, hq, occSum_cons] <;> omega

theorem group_sum (df : List AlarmRecord) (ks : List String) (hnd : ks.Nodup) :
    (ks.map (siteTotal df)).sum = occSum (df.filter (keyIn ks)) := by
  induction ks with
  | nil =>
    have h : df.filter (keyIn []) = [] := by
      apply List.filter_eq_nil_iff.mpr
      intro a _
      cases h : a.neName <;> simp [keyIn, h]
    simp [h, occSum]
  | cons k t ih =>
    rcases List.nodup_cons.mp hnd with ⟨hk, hnd2⟩
    have hdisj : ∀ r, ¬((r.neName == some k) = true ∧ keyIn t r = true) := by
      rintro r ⟨h1, h2⟩
      have h3 : r.neName = some k := by simpa using h1
      simp only [keyIn, h3] at h2
      exact hk (by simpa [List.contains] using h2)
    have hsplit := sum_filter_disjoint df (fun r => r.neName == some k) (keyIn t) hdisj
    have hpt : df.filter (fun r => (r.neName == some k) || keyIn t r)
        = df.filter (keyIn (k :: t)) := by
      apply List.filter_congr
      intro r _
      cases h : r.neName with
      | none => simp [keyIn, h]
      | some s =>
        simp only [keyIn, h, List.contains_cons]
        rcases eq_or_ne s k with he | he <;> simp [he]
    calc ((k :: t).map (siteTotal df)).sum
        = siteTotal df k + (t.map (siteTotal df)).sum := by simp
      _ = occSum (df.filter (fun r => r.neName == some k))
            + occSum (df.filter (keyIn t)) := by rw [ih hnd2]; rfl
      _ = occSum (df.filter (fun r => (r.neName == some k) || keyIn t r)) := hsplit
      _ = occSum (df.filter (keyIn (k :: t))) := by rw [hpt]

theorem grand_total_isSome (df : List AlarmRecord) :
    grand_total (site_criticals df)
      = occSum (df.filter (fun r => r.neName.isSome)) := by
  have hperm :=
    (sortDesc_perm ((siteKeys df).map (fun s => (s, siteTotal df s)))).map Prod.snd
  have h1 : grand_total (site_criticals df) = ((siteKeys df).map (siteTotal df)).sum := by
    unfold grand_total site_criticals
    rw [hperm.sum_eq, List.map_map]
    rfl
  rw [h1, group_sum df (siteKeys df) (List.nodup_dedup _)]
  congr 1
  apply List.filter_congr
  intro r hr
  cases h : r.neName with
  | none => simp [keyIn, h]
  | some s =>
    have hs : s ∈ siteKeys df :=
      List.mem_dedup.mpr (List.mem_filterMap.mpr ⟨r, hr, h⟩)
    simp [keyIn, h, List.contains, hs]

theorem filterMap_filter_eq {β : Type} (g : AlarmRecord → Option β) (p : AlarmRecord → Bool)
    (h : ∀ r, p r = false → g r = none) (l : List AlarmRecord) :
    (l.filter p).filterMap g = l.filterMap g := by
  induction l with
  | nil => rfl
  | cons a t ih =>
    cases hp : p a
    · simp [List.filter_cons, hp, List.filterMap_cons, h a hp, ih]
    · simp [List.filter_cons, hp, List.filterMap_cons, ih]

theorem filter_filter_sub (p q : AlarmRecord → Bool)
    (h : ∀ r, q r = true → p r = true) (l : List AlarmRecord) :
    (l.filter p).filter q = l.filter q := by
  induction l with
  | nil => rfl
  | cons a t ih =>
    by_cases hq : q a = true
    · have hp := h a hq
      simp [List.filter_cons, hp, hq, ih]
    · have hq2 : q a = false := by revert hq; cases q a <;> simp
      cases hp : p a <;> simp [List.filter_cons, hp, hq2, ih]

theorem timePairs_filter_isSome (df : List AlarmRecord) :
    timePairs (df.filter (fun r => r.neName.isSome)) = timePairs df := by
  unfold timePairs
  rw [filterMap_filter_eq]
  intro r hr
  have h : r.neName = none := by
    revert hr
    cases r.neName <;> simp
  simp [h]

theorem cellTotal_filter_isSome (df : List AlarmRecord) (m : Int × Int) (s : String) :
    cellTotal (df.filter (fun r => r.neName.isSome)) m s = cellTotal df m s := by
  unfold cellTotal
  rw [filter_filter_sub]
  intro r hr
  simp only [Bool.and_eq_true] at hr
  rcases hr with ⟨-, h2⟩
  have h3 : r.neName = some s := by simpa using h2
  simp [h3]

theorem mem_site_criticals (df : List AlarmRecord) (p : String × Int) :
    p ∈ site_criticals df ↔ p.1 ∈ siteKeys df ∧ p.2 = siteTotal df p.1 := by
  unfold site_criticals
  rw [(sortDesc_perm _).mem_iff, List.mem_map]
  constructor
  · rintro ⟨k, hk, rfl⟩
    exact ⟨hk, rfl⟩
  · rintro ⟨h1, h2⟩
    refine ⟨p.1, h1, ?_⟩
    cases p with
    | mk a b => simp at h2 ⊢; exact h2.symm

/-- C3: load_data returns exactly the input rows whose first-detection
value parses as a valid millisecond-epoch timestamp: the loaded size is
the input row count minus the rows whose first-detection cell fails to
parse, and every retained record has a non-null firstTimeDetected. -/
theorem load_data_size_and_nonnull (rows : List RawRecord) :
    (load_data rows).length
      = rows.length - (rows.filter (fun r => (parse_ms r.firstTimeDetected).isNone)).length
    ∧ (load_data rows).all (fun a => a.firstTimeDetected.isSome) = true := by
  constructor
  · have h1 : (load_data rows).length
        = (rows.filter (fun r => (parse_ms r.firstTimeDetected).isSome)).length := by
      unfold load_data
      rw [List.filter_map, List.length_map]
      rfl
    have h2 := length_filter_add rows (fun r => (parse_ms r.firstTimeDetected).isSome)
    have h3 : rows.filter (fun r => !((parse_ms r.firstTimeDetected).isSome))
        = rows.filter (fun r => (parse_ms r.firstTimeDetected).isNone) := by
      apply List.filter_congr
      intro a _
      cases hx : parse_ms a.firstTimeDetected <;> simp [hx]
    rw [h3] at h2
    rw [h1]
    omega
  · rw [List.all_eq_true]
    intro a ha
    exact (List.mem_filter.mp ha).2

/-- C4: filtering by the empty severity selection is a pass-through; a
Python empty list is falsy, so the filter step is skipped entirely and
the full loaded set is returned unchanged. -/
theorem severity_filter_empty_passthrough (df : List AlarmRecord) :
    severity_filter [] df = df := rfl

/-- C5: filtering by the selection containing exactly critical returns
exactly the rows whose severity, lowercased, equals critical. -/
theorem severity_filter_critical_exact (df : List AlarmRecord) (r : AlarmRecord) :
    r ∈ severity_filter (["critical"]) df ↔ r ∈ df ∧ str_lower r.severity = "critical" := by
  unfold severity_filter
  simp [List.mem_filter, List.contains_cons, List.contains]

/-- C9: the filter is a plain string-membership test, with no validation
of the severity vocabulary: a row is kept exactly when the selection is
empty or contains its lowercased severity, whatever the severity string
is, and a row with an out-of-vocabulary severity passes through the
empty selection untouched.  No error path exists: the filter is a total
function into lists. -/
theorem severity_unvalidated_passthrough :
    (∀ (sel : List String) (df : List AlarmRecord) (r : AlarmRecord),
       r ∈ severity_filter sel df ↔
         r ∈ df ∧ (sel = [] ∨ sel.contains (str_lower r.severity) = true))
    ∧ unknownSevRow ∈ severity_filter [] [unknownSevRow] := by
  constructor
  · intro sel df r
    cases sel with
    | nil => simp [severity_filter]
    | cons a t => simp [severity_filter, List.mem_filter]
  · decide

/-- C2 counterexample: the claim fails as stated.  A filtered row whose
site cell is null is dropped by the groupby, so on the one-row set with
a null neName the grand total is 0 while the occurrence sum over the
filtered rows is 5. -/
theorem grand_total_all_rows_false :
    grand_total (site_criticals (severity_filter (["critical"]) [nullSiteRow]))
      ≠ occSum (severity_filter (["critical"]) [nullSiteRow]) := by decide

/-- C2 amended: for every filtered record set in which every row has a
non-null site id, the grand total shown as the first summary metric
equals the sum of numberOfOccurrences over all filtered rows. -/
theorem grand_total_eq_filtered_sum (sel : List String) (df : List AlarmRecord)
    (h : ∀ r ∈ severity_filter sel df, r.neName.isSome = true) :
    grand_total (site_criticals (severity_filter sel df))
      = occSum (severity_filter sel df) := by
  rw [grand_total_isSome]
  congr 1
  exact List.filter_eq_self.mpr h

/-- C2 witness: the amended theorem applied to the concrete scenario
rows under the critical selection. -/
theorem grand_total_eq_filtered_sum_witness :
    grand_total (site_criticals (severity_filter (["critical"]) demoRows))
      = occSum (severity_filter (["critical"]) demoRows) :=
  grand_total_eq_filtered_sum (["critical"]) demoRows (by decide)

/-- C6: a (month, site) combination taken from the two pivot axes but
absent from the filtered input is a missing cell before fillna and is
exactly 0 in the rendered matrix, never missing. -/
theorem pivot_absent_pair_zero (df : List AlarmRecord) (m : Int × Int) (s : String)
    (_hm : m ∈ monthsAxis df) (_hs : s ∈ sitesAxis df)
    (hpair : (m, s) ∉ timePairs df) :
    pivotCell df m s = none ∧ pivot_table df m s = 0 := by
  exact ⟨by simp [pivotCell, hpair], by simp [pivot_table, pivotCell, hpair]⟩

/-- C6 witness: in the scenario rows, January 2024 and site B both occur
in the data, but B has no January alarms, and its January cell is 0. -/
theorem pivot_absent_pair_zero_witness :
    pivotCell demoRows (2024, 1) ("B") = none
    ∧ pivot_table demoRows (2024, 1) ("B") = 0 :=
  pivot_absent_pair_zero demoRows (2024, 1) ("B") (by decide) (by decide) (by decide)

/-- C7: a site is in the top-site list exactly when it is a group key
whose aggregated total equals the maximum total, so every tied site is
flagged; in the scenario filtered by critical, A and B are both flagged
in the record-level table and in the heatmap site axis. -/
theorem top_sites_all_ties_flagged :
    (∀ (df : List AlarmRecord) (s : String),
       s ∈ top_sites (site_criticals df) ↔
         s ∈ siteKeys df ∧ siteTotal df s = max_crit (site_criticals df))
    ∧ top_sites (site_criticals (severity_filter (["critical"]) demoRows)) = ["A", "B"]
    ∧ df_display (top_sites (site_criticals (severity_filter (["critical"]) demoRows)))
        (severity_filter (["critical"]) demoRows)
      = [ { neName := some ("A 🚨"), severity := "critical", numberOfOccurrences := 5,
            firstTimeDetected := some 1704412800000, lastTimeDetected := none },
          { neName := some ("B 🚨"), severity := "critical", numberOfOccurrences := 5,
            firstTimeDetected := some 1707523200000, lastTimeDetected := none } ]
    ∧ heatSiteLabels (top_sites (site_criticals (severity_filter (["critical"]) demoRows)))
        (severity_filter (["critical"]) demoRows) = ["A 🚨", "B 🚨"] := by
  refine ⟨?_, by decide, by decide, by decide⟩
  intro df s
  unfold top_sites
  rw [List.mem_map]
  constructor
  · rintro ⟨p, hp, rfl⟩
    rcases List.mem_filter.mp hp with ⟨hmem, hmax⟩
    rcases (mem_site_criticals df p).mp hmem with ⟨h1, h2⟩
    refine ⟨h1, ?_⟩
    have h4 : p.2 = max_crit (site_criticals df) := by simpa using hmax
    rw [← h2, h4]
  · rintro ⟨h1, h2⟩
    refine ⟨(s, siteTotal df s), ?_, rfl⟩
    apply List.mem_filter.mpr
    refine ⟨(mem_site_criticals df (s, siteTotal df s)).mpr ⟨h1, rfl⟩, ?_⟩
    simpa using h2

/-- C8: a pipeline run only derives views; the loaded record set it
leaves behind is the one it was given, the filtered view is a pure
function of it, and building the marked display table changes no column
other than the displayed site name. -/
theorem pipeline_preserves_loaded (sel : List String) (df : List AlarmRecord) :
    (runPipeline sel df).loaded = df
    ∧ (runPipeline sel df).filtered = severity_filter sel df
    ∧ (∀ (tops : List String) (l : List AlarmRecord),
         (df_display tops l).map (fun r => r.severity) = l.map (fun r => r.severity))
    ∧ (∀ (tops : List String) (l : List AlarmRecord),
         (df_display tops l).map (fun r => r.numberOfOccurrences)
           = l.map (fun r => r.numberOfOccurrences))
    ∧ (∀ (tops : List String) (l : List AlarmRecord),
         (df_display tops l).map (fun r => r.firstTimeDetected)
           = l.map (fun r => r.firstTimeDetected)) := by
  refine ⟨rfl, rfl, ?_, ?_, ?_⟩ <;>
    (intro tops l; simp only [df_display, List.map_map]; rfl)

/-- C10: rows whose site cell is null are silently excluded from both
aggregations: the grand total only sums rows with a non-null site, the
pivot is unchanged by discarding null-site rows, yet every row, null
site included, still yields a row of the display table. -/
theorem null_site_rows_excluded (df : List AlarmRecord) (tops : List String)
    (m : Int × Int) (s : String) :
    grand_total (site_criticals df) = occSum (df.filter (fun r => r.neName.isSome))
    ∧ pivot_table df m s = pivot_table (df.filter (fun r => r.neName.isSome)) m s
    ∧ df_display tops df = df.map (fun r => { r with neName := markName tops r.neName })
    ∧ (df_display tops df).length = df.length := by
  refine ⟨grand_total_isSome df, ?_, rfl, by simp [df_display]⟩
  unfold pivot_table pivotCell
  rw [timePairs_filter_isSome, cellTotal_filter_isSome]

/-- C1 counterexample: the claim fails as stated.  On the empty filtered
set the script does show the notice, but the three metric cards are
still rendered, so the page is not free of metric items. -/
theorem empty_render_claim_false :
    ¬ ((RenderItem.warning ("No alarms to display.")) ∈ render (["critical"]) []
       ∧ ∀ (l : String) (v : MetricValue), (RenderItem.metric l v) ∉ render (["critical"]) []) := by
  intro hcl
  exact hcl.2 ("Number of Sites") (MetricValue.int 0) (by decide)

/-- C1 amended: whenever the site-totals table is empty, the page shows
the notice and no record table, but the three summary metrics are still
computed and rendered unconditionally: grand total 0, mean NaN, site
count 0. -/
theorem empty_render_notice_and_metrics (sel : List String) (df : List AlarmRecord)
    (h : site_criticals (severity_filter sel df) = []) :
    (RenderItem.warning ("No alarms to display.")) ∈ render sel df
    ∧ (∀ rows, (RenderItem.table rows) ∉ render sel df)
    ∧ (RenderItem.metric ("Total " ++ severity_label sel) (MetricValue.int 0)) ∈ render sel df
    ∧ (RenderItem.metric ("Average " ++ severity_label sel ++ " per Site") MetricValue.nan)
        ∈ render sel df
    ∧ (RenderItem.metric ("Number of Sites") (MetricValue.int 0)) ∈ render sel df := by
  simp only [render, h]
  simp [grand_total, mean_metric]

/-- C1 witness: the amended theorem applied to the empty loaded set
under the critical selection. -/
theorem empty_render_notice_and_metrics_witness :
    (RenderItem.warning ("No alarms to display.")) ∈ render (["critical"]) []
    ∧ (∀ rows, (RenderItem.table rows) ∉ render (["critical"]) [])
    ∧ (RenderItem.metric ("Total " ++ severity_label (["critical"])) (MetricValue.int 0))
        ∈ render (["critical"]) []
    ∧ (RenderItem.metric ("Average " ++ severity_label (["critical"]) ++ " per Site") MetricValue.nan)
        ∈ render (["critical"]) []
    ∧ (RenderItem.metric ("Number of Sites") (MetricValue.int 0)) ∈ render (["critical"]) [] :=
  empty_render_notice_and_metrics (["critical"]) [] (by decide)
